import Mathlib

/-!
Verification of the ThriveMuse orchestration layer
(`src/musetalk_wrapper.py` and `src/api_server.py`).

The two Python files are shallowly embedded as pure Lean functions over an
explicit filesystem state.  Files are modelled as an association list from
path strings to a record of size, modification time and textual content;
directories are a separate list of path strings.  The external inference
subprocess is a world parameter (`SubRun`): whether it timed out, its exit
code, its captured streams and the files/directories it created.  All
filesystem primitives (create, write, unlink, rename) are modelled as
total operations on this state; `os.chdir` and the `PATH` prepend are
recorded, never failing.  Exceptions raised by the Python `except` guards
other than `subprocess.TimeoutExpired` have no counterpart in this total
model.
-/

/-- Metadata and content of one file (Python `Path.stat()` plus the text a
`write_text` stored; `content` is opaque for binary files). -/
structure FileInfo where
  size : Nat
  mtime : Nat
  content : String
  deriving Repr, DecidableEq

/-- The filesystem: an association list from absolute path to `FileInfo`. -/
abbrev FS := List (String × FileInfo)

/-- First entry whose path equals `p` (paths are kept unique by `fsSet`). -/
def lookupFile : FS → String → Option FileInfo
  | [], _ => none
  | e :: es, p => if e.1 = p then some e.2 else lookupFile es p

/-- `Path.exists()` for files. -/
def fileExists (fs : FS) (p : String) : Bool :=
  (lookupFile fs p).isSome

/-- `os.unlink` / removal of a path from the filesystem. -/
def fsRemove (fs : FS) (p : String) : FS :=
  fs.filter (fun e => decide (e.1 ≠ p))

/-- Create or overwrite the file at `p`. -/
def fsSet (fs : FS) (p : String) (i : FileInfo) : FS :=
  (p, i) :: fsRemove fs p

/-- Apply a batch of file creations (the subprocess's writes) in order. -/
def mergeFS (fs : FS) (new : FS) : FS :=
  new.foldl (fun acc e => fsSet acc e.1 e.2) fs

/-- `os.replace(src, dst)` / `Path(src).replace(dst)`: atomic rename.  The
source entry disappears and its data reappears at `dst`; renaming a path
onto itself leaves the file in place, as POSIX `rename` does. -/
def fsReplace (fs : FS) (src dst : String) : FS :=
  match lookupFile fs src with
  | none => fs
  | some i => fsSet (fsRemove fs src) dst i

/-- Content served by `send_file` for the file at `p`. -/
def contentAt (fs : FS) (p : String) : String :=
  match lookupFile fs p with
  | none => ""
  | some i => i.content

/-- Insert a directory path if absent (`mkdir(parents=True, exist_ok=True)`,
parents elided). -/
def addDir (l : List String) (d : String) : List String :=
  if d ∈ l then l else d :: l

/-- Lexicographic `≤` on character lists, mirroring Python string ordering
for the ASCII paths involved. -/
def charsLe : List Char → List Char → Bool
  | [], _ => true
  | _ :: _, [] => false
  | x :: xs, y :: ys => if x = y then charsLe xs ys else decide (x < y)

/-- String order used by `sorted(...)`. -/
def strLe (a b : String) : Bool :=
  charsLe a.data b.data

/-- Insertion into a `strLe`-sorted list. -/
def insertSorted (x : String) : List String → List String
  | [] => [x]
  | y :: ys => if strLe x y then x :: y :: ys else y :: insertSorted x ys

/-- Python's `sorted` on a list of path strings. -/
def sortStrings (l : List String) : List String :=
  l.foldr insertSorted []

/-- Whether path `p` lies (at any depth) under directory `dir`: the match
condition of the `dir/**/...` glob patterns and of `Path(dir).rglob`. -/
def isUnder (dir p : String) : Bool :=
  (dir ++ "/").data.isPrefixOf p.data

/-- Whether a path names an MP4 file (`*.mp4` pattern). -/
def isMp4 (p : String) : Bool :=
  ".mp4".data.isSuffixOf p.data

/-- All files below `dir`, in filesystem order: `Path(dir).rglob("*")`
filtered by `is_file()`. -/
def filesUnder (fs : FS) (dir : String) : List String :=
  (fs.filter (fun e => isUnder dir e.1)).map Prod.fst

/-- The MP4 files below `dir`, unsorted: `Path(dir).rglob("*.mp4")`. -/
def mp4sUnder (fs : FS) (dir : String) : List String :=
  (fs.filter (fun e => isUnder dir e.1 && isMp4 e.1)).map Prod.fst

/-- `sorted(glob(str(dir / "**" / "*.mp4"), recursive=True))`. -/
def globMp4 (fs : FS) (dir : String) : List String :=
  sortStrings (mp4sUnder fs dir)

/-- The ranking key `(Path(p).stat().st_size, Path(p).stat().st_mtime)`;
paths fed to it always come from a glob over `fs`, so the default is
never reached. -/
def statKey (fs : FS) (p : String) : Nat × Nat :=
  match lookupFile fs p with
  | some i => (i.size, i.mtime)
  | none => (0, 0)

/-- Strict lexicographic comparison of ranking keys, Python tuple `<`. -/
def keyLtb (a b : Nat × Nat) : Bool :=
  decide (a.1 < b.1) || (decide (a.1 = b.1) && decide (a.2 < b.2))

/-- Non-strict lexicographic order on ranking keys. -/
def keyLe (a b : Nat × Nat) : Prop :=
  a.1 < b.1 ∨ (a.1 = b.1 ∧ a.2 ≤ b.2)

instance (a b : Nat × Nat) : Decidable (keyLe a b) := by
  unfold keyLe; infer_instance

/-- Python `max(best :: rest, key=key)`: scan left to right, replacing the
current best exactly when the new key is strictly greater, so the first
element of key-maximal rank wins ties. -/
def pyMaxAux (key : String → Nat × Nat) (best : String) : List String → String
  | [] => best
  | x :: xs => pyMaxAux key (if keyLtb (key best) (key x) then x else best) xs

/-- Python `s[-n:]` on a (possibly empty) string. -/
def strTail (s : String) (n : Nat) : String :=
  String.mk (s.data.drop (s.data.length - n))

/-- `image_path.replace("\\", "/")`: single-character replacement is a map
over the characters. -/
def normSlash (s : String) : String :=
  String.mk (s.data.map (fun c => if c = '\\' then '/' else c))

/-- The configuration document text emitted by `make_temp_yaml`. -/
def yamlText (audio_path image_path : String) : String :=
  "task_0:\n" ++
  "  video_path: \"" ++ normSlash image_path ++ "\"\n" ++
  "  audio_path: \"" ++ normSlash audio_path ++ "\"\n" ++
  "  bbox_shift: 0\n"

/-- Environment-configured paths of the wrapper (module constants
`MUSETALK_PATH`, `FFMPEG_BIN`, `PYTHON_ENV` and the `TEMP_DIR` variable). -/
structure Env where
  musetalkPath : String
  tempDir : String
  pythonEnv : String
  ffmpegBin : String
  deriving Repr, DecidableEq

/-- `check_required_weights`: either format variant of the sd-vae weight
file must exist; on failure the `.bin` path is reported. -/
def check_required_weights (musetalkPath : String) (fs : FS) : Bool × String :=
  let sd_vae_bin := musetalkPath ++ "/models/sd-vae/diffusion_pytorch_model.bin"
  let sd_vae_safetensors :=
    musetalkPath ++ "/models/sd-vae/diffusion_pytorch_model.safetensors"
  if fileExists fs sd_vae_bin || fileExists fs sd_vae_safetensors then (true, "")
  else (false, sd_vae_bin)

/-- Outcome of the one `subprocess.run` call: a world parameter.  On
`timedOut` the `TimeoutExpired` branch is taken; otherwise the process
finished with `returncode` and the captured streams.  `createdFiles` and
`createdDirs` are whatever the subprocess wrote before returning. -/
structure SubRun where
  timedOut : Bool
  returncode : Int
  stdout : String
  stderr : String
  excRepr : String
  createdFiles : FS
  createdDirs : List String
  deriving Repr, DecidableEq

/-- Machine state threaded through the wrapper: the filesystem, the
directories, the working directory, and flags recording whether the
subprocess was launched, whether the fallback-search phase ran, and
whether the HTTP handler invoked the Job Runner. -/
structure St where
  fs : FS
  dirs : List String
  cwd : String
  subLaunched : Bool
  fallbackSearched : Bool
  runnerInvoked : Bool
  deriving Repr, DecidableEq

/-- `write_text`: create or overwrite a text file (size is the text
length; our own writes carry modification time 0, which no claim reads). -/
def stWrite (st : St) (p text : String) : St :=
  { st with fs := fsSet st.fs p ⟨text.length, 0, text⟩ }

/-- `os.chdir(MUSETALK_PATH)` (line 54). -/
def stChdir (env : Env) (st : St) : St :=
  { st with cwd := env.musetalkPath }

/-- `result_dir.mkdir(parents=True, exist_ok=True)` (line 64). -/
def stMkdir (env : Env) (st : St) : St :=
  { st with dirs := addDir st.dirs env.tempDir }

/-- `str(result_dir / "my_test.yaml")`. -/
def yamlPathOf (env : Env) : String :=
  env.tempDir ++ "/my_test.yaml"

/-- State after lines 54-68: chdir, weight check passed, results dir
created, config document written by `make_temp_yaml`. -/
def stAfterYaml (env : Env) (st0 : St) (audio_path image_path : String) : St :=
  stWrite (stMkdir env (stChdir env st0)) (yamlPathOf env)
    (yamlText audio_path image_path)

/-- State once `subprocess.run` has returned or timed out (lines 87-93):
the launch flag is set and the subprocess's writes are merged in. -/
def stAfterLaunch (env : Env) (sub : SubRun) (st0 : St)
    (audio_path image_path : String) : St :=
  let st := stAfterYaml env st0 audio_path image_path
  { st with
    subLaunched := true
    fs := mergeFS st.fs sub.createdFiles
    dirs := sub.createdDirs.foldl addDir st.dirs }

/-- State after the best-effort persistence of `stdout.log` and
`stderr.log` (lines 96-100), on the non-timeout path. -/
def stAfterLogs (env : Env) (sub : SubRun) (st0 : St)
    (audio_path image_path : String) : St :=
  stWrite
    (stWrite (stAfterLaunch env sub st0 audio_path image_path)
      (env.tempDir ++ "/stdout.log") sub.stdout)
    (env.tempDir ++ "/stderr.log") sub.stderr

/-- The argument vector of lines 70-80. -/
def musetCmd (env : Env) : List String :=
  [env.pythonEnv, "-m", "scripts.inference",
   "--inference_config", yamlPathOf env,
   "--result_dir", env.tempDir,
   "--unet_model_path", "models/musetalkV15/unet.pth",
   "--unet_config", "models/musetalkV15/musetalk.json",
   "--version", "v15",
   "--ffmpeg_path", env.ffmpegBin,
   "--use_float16"]

/-- The `run_logs` dictionary of lines 102-111, with the three optional
diagnostic keys of lines 126-129 initially absent. -/
structure RunLogs where
  cmd : List String
  cwd : String
  stdout : String
  stderr : String
  stdout_tail : String
  stderr_tail : String
  returncode : Int
  result_dir : String
  result_dir_files : Option (List String)
  fallback_results_root : Option String
  fallback_results_files : Option (List String)
  deriving Repr, DecidableEq

/-- The `logs` value of a Job Result: the `run_logs` dictionary, the
timeout dictionary `{"phase": "timeout", "exception": repr(e)}`, or the
generic exception dictionary. -/
inductive JobLogs where
  | run (r : RunLogs)
  | timeout (excRepr : String)
  | exc (excRepr : String)
  deriving Repr, DecidableEq

/-- The dictionary returned by `run_musetalk`.  `output` models the
`"output"` key, present only on the success returns. -/
structure JobResult where
  success : Bool
  output : Option String
  error : Option String
  logs : Option JobLogs
  deriving Repr, DecidableEq

/-- `run_logs` as built on lines 102-111. -/
def mkRunLogs (env : Env) (sub : SubRun) : RunLogs :=
  { cmd := musetCmd env
    cwd := env.musetalkPath
    stdout := sub.stdout
    stderr := sub.stderr
    stdout_tail := strTail sub.stdout 4000
    stderr_tail := strTail sub.stderr 4000
    returncode := sub.returncode
    result_dir := env.tempDir
    result_dir_files := none
    fallback_results_root := none
    fallback_results_files := none }

/-- `Path(MUSETALK_PATH) / "results"` (line 120). -/
def fallbackRootOf (env : Env) : String :=
  env.musetalkPath ++ "/results"

/-- Directory existence, `Path.exists()` on a directory. -/
def dirExists (st : St) (d : String) : Bool :=
  d ∈ st.dirs

/-- Lines 116-144: the output-discovery phase entered when the subprocess
exited zero.  `st` is the state at line 116 and `logs0` the `run_logs`
dictionary built just before. -/
def searchPhase (env : Env) (output_path : String) (st : St)
    (logs0 : RunLogs) : JobResult × St :=
  match globMp4 st.fs env.tempDir with
  | [] =>
    let st := { st with fallbackSearched := true }
    let fallback_root := fallbackRootOf env
    let fbEx := dirExists st fallback_root
    let fallback_mp4s := if fbEx then globMp4 st.fs fallback_root else []
    let logs1 := { logs0 with
      result_dir_files := some ((filesUnder st.fs env.tempDir).take 200) }
    let logs2 :=
      if fbEx then
        { logs1 with
          fallback_results_root := some fallback_root
          fallback_results_files := some ((mp4sUnder st.fs fallback_root).take 200) }
      else logs1
    match fallback_mp4s with
    | [] =>
      ({ success := false, output := none,
         error := some "No MP4 found in result_dir",
         logs := some (JobLogs.run logs2) }, st)
    | y :: ys =>
      let best := pyMaxAux (statKey st.fs) y ys
      ({ success := true, output := some output_path, error := none,
         logs := some (JobLogs.run logs2) },
       { st with fs := fsReplace st.fs best output_path })
  | x :: xs =>
    let best := pyMaxAux (statKey st.fs) x xs
    ({ success := true, output := some output_path, error := none,
       logs := some (JobLogs.run logs0) },
     { st with fs := fsReplace st.fs best output_path })

/-- `run_musetalk(audio_path, image_path, output_path)` (lines 48-150). -/
def run_musetalk (env : Env) (sub : SubRun) (st0 : St)
    (audio_path image_path output_path : String) : JobResult × St :=
  let st1 := stChdir env st0
  let c := check_required_weights env.musetalkPath st1.fs
  if c.1 = false then
    ({ success := false, output := none,
       error := some ("Missing required weight file: " ++ c.2),
       logs := none }, st1)
  else
    let stL := stAfterLaunch env sub st0 audio_path image_path
    if sub.timedOut then
      ({ success := false, output := none,
         error := some "MuseTalk timeout expired",
         logs := some (JobLogs.timeout sub.excRepr) }, stL)
    else
      let stG := stAfterLogs env sub st0 audio_path image_path
      let logs0 := mkRunLogs env sub
      if sub.returncode ≠ 0 then
        ({ success := false, output := none,
           error := some "MuseTalk returned non-zero",
           logs := some (JobLogs.run logs0) }, stG)
      else
        searchPhase env output_path stG logs0

/-! ## The HTTP layer (`src/api_server.py`) -/

/-- The fixed avatar video path used as reference media. -/
def AVATAR_VIDEO_PATH : String := "/app/assets/avatar_video.mp4"

/-- The parts of a `POST /lipsync` request the handler inspects: whether
the multipart field `audio` is present, its filename, and its bytes. -/
structure HttpRequest where
  hasAudioField : Bool
  audioFilename : String
  audioContent : String
  deriving Repr, DecidableEq

/-- Per-request world of the handler: the names `tempfile` hands out for
the scratch audio file and the output placeholder, and whether the
guaranteed-cleanup phase raises (its bare `except: pass` then swallows
the exception before any unlink happened). -/
structure ApiWorld where
  tempAudioPath : String
  tempOutputPath : String
  cleanupFault : Bool
  deriving Repr, DecidableEq

/-- An HTTP response: a JSON error body with a status code, or a file
attachment response. -/
inductive HttpResponse where
  | json (status : Nat) (error : String) (details : Option String)
  | file (status : Nat) (content : String) (downloadName mimetype : String)
  deriving Repr, DecidableEq

/-- `if os.path.exists(p): os.unlink(p)` (the cleanup pattern of the
`finally` block). -/
def removeIfExists (st : St) (p : String) : St :=
  if fileExists st.fs p then { st with fs := fsRemove st.fs p } else st

/-- Scratch-file phase of the handler (api_server.py lines 33-40): the
uploaded audio saved at the temp audio path, the empty output placeholder
created at the temp output path, the runner about to be invoked. -/
def stPrepared (aw : ApiWorld) (st0 : St) (req : HttpRequest) : St :=
  { stWrite (stWrite st0 aw.tempAudioPath req.audioContent)
      aw.tempOutputPath "" with runnerInvoked := true }

/-- `create_lipsync` (api_server.py lines 21-76).  Returns the HTTP
response together with the final machine state. -/
def create_lipsync (env : Env) (sub : SubRun) (aw : ApiWorld) (st0 : St)
    (req : HttpRequest) : HttpResponse × St :=
  if req.hasAudioField = false then
    (HttpResponse.json 400 "No audio file provided" none, st0)
  else if req.audioFilename = "" then
    (HttpResponse.json 400 "No audio file selected" none, st0)
  else
    let audio_path := aw.tempAudioPath
    let output_path := aw.tempOutputPath
    let rr := run_musetalk env sub (stPrepared aw st0 req)
      audio_path AVATAR_VIDEO_PATH output_path
    let result := rr.1
    let st := { rr.2 with fs := fsRemove rr.2.fs audio_path }
    let resp :=
      if result.success then
        HttpResponse.file 200 (contentAt st.fs output_path)
          "lipsync_result.mp4" "video/mp4"
      else
        HttpResponse.json 500 "MuseTalk processing failed"
          (some (result.error.getD "Unknown error"))
    let st :=
      if aw.cleanupFault then st
      else removeIfExists (removeIfExists st audio_path) output_path
    (resp, st)

/-- Diagnostic projection: the `fallback_results_files` entry of a Job
Result's logs, when the logs are a `run_logs` dictionary. -/
def logsFallbackFiles (r : JobResult) : Option (List String) :=
  match r.logs with
  | some (JobLogs.run lg) => lg.fallback_results_files
  | _ => none

/-! ## Order lemmas for the selection key -/

theorem keyLe_refl (a : Nat × Nat) : keyLe a a :=
  Or.inr ⟨rfl, le_refl _⟩

theorem keyLe_trans (a b c : Nat × Nat) (h1 : keyLe a b) (h2 : keyLe b c) :
    keyLe a c := by
  unfold keyLe at *
  omega

theorem keyLe_of_keyLtb_true (a b : Nat × Nat) (h : keyLtb a b = true) :
    keyLe a b := by
  simp only [keyLtb, Bool.or_eq_true, Bool.and_eq_true, decide_eq_true_eq] at h
  unfold keyLe
  omega

theorem keyLe_of_keyLtb_false (a b : Nat × Nat) (h : keyLtb a b = false) :
    keyLe b a := by
  simp only [keyLtb, Bool.or_eq_false_iff, Bool.and_eq_false_iff,
    decide_eq_false_iff_not] at h
  unfold keyLe
  omega

/-- The scan of Python `max(..., key=...)` returns an element of the
scanned list. -/
theorem pyMaxAux_mem (k : String → Nat × Nat) (l : List String) (b : String) :
    pyMaxAux k b l ∈ b :: l := by
  induction l generalizing b with
  | nil => simp [pyMaxAux]
  | cons x xs ih =>
    simp only [pyMaxAux]
    rcases List.mem_cons.mp (ih (if keyLtb (k b) (k x) then x else b)) with h | h
    · rw [h]; split <;> simp
    · simp [h]

/-- The element Python `max(..., key=...)` returns has a key at least as
large (lexicographically) as every scanned element's key. -/
theorem pyMaxAux_le (k : String → Nat × Nat) (l : List String) (b : String) :
    ∀ p ∈ b :: l, keyLe (k p) (k (pyMaxAux k b l)) := by
  induction l generalizing b with
  | nil =>
    intro p hp
    rcases List.mem_cons.mp hp with h | h
    · subst h; exact keyLe_refl _
    · cases h
  | cons x xs ih =>
    intro p hp
    simp only [pyMaxAux]
    rcases List.mem_cons.mp hp with h | h
    · subst h
      have hc : keyLe (k p) (k (if keyLtb (k p) (k x) then x else p)) := by
        split
        · exact keyLe_of_keyLtb_true _ _ (by assumption)
        · exact keyLe_refl _
      exact keyLe_trans _ _ _ hc (ih _ _ (List.mem_cons_self _ _))
    · rcases List.mem_cons.mp h with h2 | h2
      · subst h2
        have hc : keyLe (k p) (k (if keyLtb (k b) (k p) then p else b)) := by
          split
          · exact keyLe_refl _
          · exact keyLe_of_keyLtb_false _ _ (by simp_all)
        exact keyLe_trans _ _ _ hc (ih _ _ (List.mem_cons_self _ _))
      · exact ih _ p (List.mem_cons_of_mem _ h2)

/-! ## Filesystem lemmas -/

theorem lookupFile_fsRemove_self (fs : FS) (p : String) :
    lookupFile (fsRemove fs p) p = none := by
  induction fs with
  | nil => rfl
  | cons e es ih =>
    by_cases h : e.1 = p
    · simpa [fsRemove, h] using ih
    · simpa [fsRemove, lookupFile, h] using ih

theorem lookupFile_fsRemove_ne (fs : FS) (p q : String) (h : q ≠ p) :
    lookupFile (fsRemove fs p) q = lookupFile fs q := by
  induction fs with
  | nil => rfl
  | cons e es ih =>
    by_cases he : e.1 = p
    · have h1 : fsRemove (e :: es) p = fsRemove es p := by
        simp [fsRemove, List.filter_cons, he]
      have h2 : lookupFile (e :: es) q = lookupFile es q := by
        have : ¬ e.1 = q := fun hq => h (hq.symm.trans he)
        simp [lookupFile, this]
      rw [h1, h2, ih]
    · have h1 : fsRemove (e :: es) p = e :: fsRemove es p := by
        simp [fsRemove, List.filter_cons, he]
      rw [h1]
      by_cases heq : e.1 = q
      · simp [lookupFile, heq]
      · simp [lookupFile, heq, ih]

theorem lookupFile_fsSet_self (fs : FS) (p : String) (i : FileInfo) :
    lookupFile (fsSet fs p i) p = some i := by
  simp [fsSet, lookupFile]

theorem lookupFile_fsSet_ne (fs : FS) (p q : String) (i : FileInfo)
    (h : q ≠ p) : lookupFile (fsSet fs p i) q = lookupFile fs q := by
  have : p ≠ q := fun hq => h hq.symm
  simp [fsSet, lookupFile, this, lookupFile_fsRemove_ne fs p q h]

theorem fileExists_of_mem_fst (fs : FS) (p : String)
    (h : p ∈ fs.map Prod.fst) : fileExists fs p = true := by
  induction fs with
  | nil => cases h
  | cons e es ih =>
    rcases List.mem_cons.mp h with h1 | h1
    · simp [fileExists, lookupFile, h1.symm]
    · by_cases he : e.1 = p
      · simp [fileExists, lookupFile, he]
      · simpa [fileExists, lookupFile, he] using ih h1

theorem mem_insertSorted (x a : String) (l : List String) :
    a ∈ insertSorted x l ↔ a = x ∨ a ∈ l := by
  induction l with
  | nil => simp [insertSorted]
  | cons y ys ih =>
    simp only [insertSorted]
    split
    · simp
    · rw [List.mem_cons, ih, List.mem_cons]
      tauto

theorem mem_sortStrings (a : String) (l : List String) :
    a ∈ sortStrings l ↔ a ∈ l := by
  induction l with
  | nil => simp [sortStrings]
  | cons x xs ih =>
    simp only [sortStrings, List.foldr] at *
    rw [mem_insertSorted, ih, List.mem_cons]

/-- Every path a glob returns names an existing file. -/
theorem fileExists_of_mem_globMp4 (fs : FS) (dir p : String)
    (h : p ∈ globMp4 fs dir) : fileExists fs p = true := by
  rw [globMp4, mem_sortStrings] at h
  rcases List.mem_map.mp h with ⟨e, he, rfl⟩
  exact fileExists_of_mem_fst fs e.1
    (List.mem_map.mpr ⟨e, List.mem_of_mem_filter he, rfl⟩)

/-! ## Branch-reduction lemmas for `run_musetalk` -/

theorem run_musetalk_weights_missing (env : Env) (sub : SubRun) (st0 : St)
    (a i o : String)
    (h : (check_required_weights env.musetalkPath st0.fs).1 = false) :
    run_musetalk env sub st0 a i o =
      ({ success := false, output := none,
         error := some ("Missing required weight file: "
           ++ (check_required_weights env.musetalkPath st0.fs).2),
         logs := none }, stChdir env st0) := by
  simp only [run_musetalk, stChdir]
  rw [h]
  simp

theorem run_musetalk_timeout (env : Env) (sub : SubRun) (st0 : St)
    (a i o : String)
    (hw : (check_required_weights env.musetalkPath st0.fs).1 = true)
    (ht : sub.timedOut = true) :
    run_musetalk env sub st0 a i o =
      ({ success := false, output := none,
         error := some "MuseTalk timeout expired",
         logs := some (JobLogs.timeout sub.excRepr) },
       stAfterLaunch env sub st0 a i) := by
  simp only [run_musetalk, stChdir]
  rw [hw]
  simp [ht]

theorem run_musetalk_nonzero (env : Env) (sub : SubRun) (st0 : St)
    (a i o : String)
    (hw : (check_required_weights env.musetalkPath st0.fs).1 = true)
    (ht : sub.timedOut = false)
    (hr : sub.returncode ≠ 0) :
    run_musetalk env sub st0 a i o =
      ({ success := false, output := none,
         error := some "MuseTalk returned non-zero",
         logs := some (JobLogs.run (mkRunLogs env sub)) },
       stAfterLogs env sub st0 a i) := by
  simp only [run_musetalk, stChdir]
  rw [hw]
  simp [ht, hr]

theorem run_musetalk_search (env : Env) (sub : SubRun) (st0 : St)
    (a i o : String)
    (hw : (check_required_weights env.musetalkPath st0.fs).1 = true)
    (ht : sub.timedOut = false)
    (hr : sub.returncode = 0) :
    run_musetalk env sub st0 a i o =
      searchPhase env o (stAfterLogs env sub st0 a i) (mkRunLogs env sub) := by
  simp only [run_musetalk, stChdir]
  rw [hw]
  simp [ht, hr]

theorem searchPhase_found (env : Env) (o : String) (st : St) (logs0 : RunLogs)
    (x : String) (xs : List String)
    (h : globMp4 st.fs env.tempDir = x :: xs) :
    searchPhase env o st logs0 =
      ({ success := true, output := some o, error := none,
         logs := some (JobLogs.run logs0) },
       { st with fs := fsReplace st.fs (pyMaxAux (statKey st.fs) x xs) o }) := by
  unfold searchPhase
  rw [h]

theorem searchPhase_fallback_found (env : Env) (o : String) (st : St)
    (logs0 : RunLogs) (y : String) (ys : List String)
    (h : globMp4 st.fs env.tempDir = [])
    (hd : dirExists st (fallbackRootOf env) = true)
    (hf : globMp4 st.fs (fallbackRootOf env) = y :: ys) :
    searchPhase env o st logs0 =
      ({ success := true, output := some o, error := none,
         logs := some (JobLogs.run
           { logs0 with
             result_dir_files := some ((filesUnder st.fs env.tempDir).take 200)
             fallback_results_root := some (fallbackRootOf env)
             fallback_results_files :=
               some ((mp4sUnder st.fs (fallbackRootOf env)).take 200) }) },
       { st with
         fallbackSearched := true
         fs := fsReplace st.fs (pyMaxAux (statKey st.fs) y ys) o }) := by
  unfold searchPhase
  rw [h]
  simp only [dirExists] at hd
  simp [dirExists, hd, hf]

theorem searchPhase_not_found_fb (env : Env) (o : String) (st : St)
    (logs0 : RunLogs)
    (h : globMp4 st.fs env.tempDir = [])
    (hd : dirExists st (fallbackRootOf env) = true)
    (hf : globMp4 st.fs (fallbackRootOf env) = []) :
    searchPhase env o st logs0 =
      ({ success := false, output := none,
         error := some "No MP4 found in result_dir",
         logs := some (JobLogs.run
           { logs0 with
             result_dir_files := some ((filesUnder st.fs env.tempDir).take 200)
             fallback_results_root := some (fallbackRootOf env)
             fallback_results_files :=
               some ((mp4sUnder st.fs (fallbackRootOf env)).take 200) }) },
       { st with fallbackSearched := true }) := by
  unfold searchPhase
  rw [h]
  simp only [dirExists] at hd
  simp [dirExists, hd, hf]

theorem searchPhase_not_found_nofb (env : Env) (o : String) (st : St)
    (logs0 : RunLogs)
    (h : globMp4 st.fs env.tempDir = [])
    (hd : dirExists st (fallbackRootOf env) = false) :
    searchPhase env o st logs0 =
      ({ success := false, output := none,
         error := some "No MP4 found in result_dir",
         logs := some (JobLogs.run
           { logs0 with
             result_dir_files :=
               some ((filesUnder st.fs env.tempDir).take 200) }) },
       { st with fallbackSearched := true }) := by
  unfold searchPhase
  rw [h]
  simp only [dirExists] at hd
  simp [dirExists, hd]

/-! ## C1 -/

/-- C1: every Job Result `run_musetalk` returns has its output-path field
populated if and only if its success field is true, and when populated it
holds exactly the caller-specified output path. -/
theorem c1_output_iff_success (env : Env) (sub : SubRun) (st0 : St)
    (a i o : String) :
    (run_musetalk env sub st0 a i o).1.output =
      (if (run_musetalk env sub st0 a i o).1.success = true
       then some o else none) := by
  by_cases hw : (check_required_weights env.musetalkPath st0.fs).1 = false
  · rw [run_musetalk_weights_missing env sub st0 a i o hw]
    simp
  · have hw' : (check_required_weights env.musetalkPath st0.fs).1 = true := by
      simpa using hw
    by_cases ht : sub.timedOut = true
    · rw [run_musetalk_timeout env sub st0 a i o hw' ht]
      simp
    · have ht' : sub.timedOut = false := by simpa using ht
      by_cases hr : sub.returncode = 0
      · rw [run_musetalk_search env sub st0 a i o hw' ht' hr]
        cases hg : globMp4 (stAfterLogs env sub st0 a i).fs env.tempDir with
        | nil =>
          by_cases hd : dirExists (stAfterLogs env sub st0 a i)
              (fallbackRootOf env) = true
          · cases hf : globMp4 (stAfterLogs env sub st0 a i).fs
                (fallbackRootOf env) with
            | nil =>
              rw [searchPhase_not_found_fb env o _ _ hg hd hf]
              simp
            | cons y ys =>
              rw [searchPhase_fallback_found env o _ _ y ys hg hd hf]
              simp
          · have hd' : dirExists (stAfterLogs env sub st0 a i)
                (fallbackRootOf env) = false := by simpa using hd
            rw [searchPhase_not_found_nofb env o _ _ hg hd']
            simp
        | cons x xs =>
          rw [searchPhase_found env o _ _ x xs hg]
          simp
      · rw [run_musetalk_nonzero env sub st0 a i o hw' ht' hr]
        simp

/-! ## Concrete worlds used by witnesses and counterexamples -/

/-- A deployment environment with the documented default paths. -/
def envW : Env :=
  { musetalkPath := "/app/MuseTalk", tempDir := "/tmp/results",
    pythonEnv := "python", ffmpegBin := "/usr/bin" }

/-- Initial state: the `.bin` weight variant exists, nothing else. -/
def stW : St :=
  { fs := [("/app/MuseTalk/models/sd-vae/diffusion_pytorch_model.bin",
      ⟨334, 1, ""⟩)],
    dirs := [], cwd := "/", subLaunched := false, fallbackSearched := false,
    runnerInvoked := false }

/-- Initial state with no weight file at all. -/
def stNoW : St :=
  { fs := [], dirs := [], cwd := "/", subLaunched := false,
    fallbackSearched := false, runnerInvoked := false }

/-- Subprocess run that exits 0 and writes a single MP4 into the results
directory. -/
def subSingle : SubRun :=
  { timedOut := false, returncode := 0, stdout := "ok", stderr := "",
    excRepr := "",
    createdFiles := [("/tmp/results/v1/out.mp4", ⟨500, 7, "vid"⟩)],
    createdDirs := ["/tmp/results/v1"] }

/-- Subprocess run that exits 0 and writes two MP4s of different sizes
(the larger one older). -/
def subTwo : SubRun :=
  { timedOut := false, returncode := 0, stdout := "", stderr := "",
    excRepr := "",
    createdFiles := [("/tmp/results/a.mp4", ⟨10485760, 1, "big"⟩),
                     ("/tmp/results/b.mp4", ⟨5242880, 99, "small"⟩)],
    createdDirs := [] }

/-- Subprocess run that exits 0 but writes no MP4 anywhere; it does create
the fallback root with a stray text file in it. -/
def subNoOut : SubRun :=
  { timedOut := false, returncode := 0, stdout := "", stderr := "",
    excRepr := "",
    createdFiles := [("/app/MuseTalk/results/readme.txt", ⟨3, 2, "hi"⟩)],
    createdDirs := ["/app/MuseTalk/results"] }

/-- Subprocess run that exits 0, writes nothing under the results
directory, but drops one MP4 under the fallback root. -/
def subFB : SubRun :=
  { timedOut := false, returncode := 0, stdout := "", stderr := "",
    excRepr := "",
    createdFiles := [("/app/MuseTalk/results/avatar/gen.mp4", ⟨900, 5, "fbvid"⟩)],
    createdDirs := ["/app/MuseTalk/results", "/app/MuseTalk/results/avatar"] }

/-- Subprocess run that hits the 900 s wall-clock timeout. -/
def subTO : SubRun :=
  { timedOut := true, returncode := 0, stdout := "", stderr := "",
    excRepr := "TimeoutExpired(cmd, 900)", createdFiles := [],
    createdDirs := [] }

/-- Temp-file names handed out by `tempfile`, cleanup succeeding. -/
def awW : ApiWorld :=
  { tempAudioPath := "/tmp/tmpaud.mp3", tempOutputPath := "/tmp/tmpout.mp4",
    cleanupFault := false }

/-- A well-formed upload request. -/
def reqW : HttpRequest :=
  { hasAudioField := true, audioFilename := "a.wav", audioContent := "AUDIO" }

/-- A request without the `audio` multipart field. -/
def reqNoAudio : HttpRequest :=
  { hasAudioField := false, audioFilename := "", audioContent := "" }

/-- A request whose `audio` field has an empty filename. -/
def reqEmptyName : HttpRequest :=
  { hasAudioField := true, audioFilename := "", audioContent := "x" }

/-! ## C2 -/

/-- C2: when the subprocess exits zero and the candidate glob is
non-empty — in the results directory, or failing that, in the fallback
directory — the file `run_musetalk` relocates is the Python
`max(..., key=(size, mtime))` of those candidates, which is a candidate
of lexicographically maximal (size, mtime) key; on two candidates of
different sizes the larger wins regardless of modification times, and on
two candidates of equal size the more recently modified one wins. -/
theorem c2_selection_rule (env : Env) (sub : SubRun) (st0 : St)
    (a i o : String)
    (hw : (check_required_weights env.musetalkPath st0.fs).1 = true)
    (ht : sub.timedOut = false)
    (hr : sub.returncode = 0) :
    (∀ (x : String) (xs : List String),
      globMp4 (stAfterLogs env sub st0 a i).fs env.tempDir = x :: xs →
        (run_musetalk env sub st0 a i o).2.fs =
          fsReplace (stAfterLogs env sub st0 a i).fs
            (pyMaxAux (statKey (stAfterLogs env sub st0 a i).fs) x xs) o
        ∧ pyMaxAux (statKey (stAfterLogs env sub st0 a i).fs) x xs ∈ x :: xs
        ∧ ∀ p ∈ x :: xs,
            keyLe (statKey (stAfterLogs env sub st0 a i).fs p)
              (statKey (stAfterLogs env sub st0 a i).fs
                (pyMaxAux (statKey (stAfterLogs env sub st0 a i).fs) x xs)))
    ∧ (∀ (y : String) (ys : List String),
      globMp4 (stAfterLogs env sub st0 a i).fs env.tempDir = [] →
      dirExists (stAfterLogs env sub st0 a i) (fallbackRootOf env) = true →
      globMp4 (stAfterLogs env sub st0 a i).fs (fallbackRootOf env) = y :: ys →
        (run_musetalk env sub st0 a i o).2.fs =
          fsReplace (stAfterLogs env sub st0 a i).fs
            (pyMaxAux (statKey (stAfterLogs env sub st0 a i).fs) y ys) o
        ∧ pyMaxAux (statKey (stAfterLogs env sub st0 a i).fs) y ys ∈ y :: ys
        ∧ ∀ p ∈ y :: ys,
            keyLe (statKey (stAfterLogs env sub st0 a i).fs p)
              (statKey (stAfterLogs env sub st0 a i).fs
                (pyMaxAux (statKey (stAfterLogs env sub st0 a i).fs) y ys)))
    ∧ (∀ (fs2 : FS) (p q : String),
        (statKey fs2 q).1 < (statKey fs2 p).1 →
          pyMaxAux (statKey fs2) p [q] = p ∧ pyMaxAux (statKey fs2) q [p] = p)
    ∧ (∀ (fs2 : FS) (p q : String),
        (statKey fs2 p).1 = (statKey fs2 q).1 →
        (statKey fs2 q).2 < (statKey fs2 p).2 →
          pyMaxAux (statKey fs2) p [q] = p ∧ pyMaxAux (statKey fs2) q [p] = p) := by
  refine ⟨?_, ?_, ?_, ?_⟩
  · intro x xs hg
    rw [run_musetalk_search env sub st0 a i o hw ht hr,
      searchPhase_found env o _ _ x xs hg]
    exact ⟨rfl, pyMaxAux_mem _ _ _, pyMaxAux_le _ _ _⟩
  · intro y ys hg hd hf
    rw [run_musetalk_search env sub st0 a i o hw ht hr,
      searchPhase_fallback_found env o _ _ y ys hg hd hf]
    exact ⟨rfl, pyMaxAux_mem _ _ _, pyMaxAux_le _ _ _⟩
  · intro fs2 p q hlt
    constructor
    · have hb : keyLtb (statKey fs2 p) (statKey fs2 q) = false := by
        simp only [keyLtb, Bool.or_eq_false_iff, Bool.and_eq_false_iff,
          decide_eq_false_iff_not]
        omega
      simp [pyMaxAux, hb]
    · have hb : keyLtb (statKey fs2 q) (statKey fs2 p) = true := by
        simp only [keyLtb, Bool.or_eq_true, Bool.and_eq_true, decide_eq_true_eq]
        omega
      simp [pyMaxAux, hb]
  · intro fs2 p q heq hlt
    constructor
    · have hb : keyLtb (statKey fs2 p) (statKey fs2 q) = false := by
        simp only [keyLtb, Bool.or_eq_false_iff, Bool.and_eq_false_iff,
          decide_eq_false_iff_not]
        omega
      simp [pyMaxAux, hb]
    · have hb : keyLtb (statKey fs2 q) (statKey fs2 p) = true := by
        simp only [keyLtb, Bool.or_eq_true, Bool.and_eq_true, decide_eq_true_eq]
        omega
      simp [pyMaxAux, hb]

/-- Witness for C2 at two concrete runs: in the results directory, two
MP4s of 10 MiB and 5 MiB (the big one older) — the 10 MiB one is selected
and moved to the output path; and with an empty results directory, the
single MP4 under the fallback root is selected and moved. -/
theorem c2_selection_rule_witness :
    ((run_musetalk envW subTwo stW "/tmp/a.mp3" AVATAR_VIDEO_PATH
        "/tmp/out.mp4").2.fs =
      fsReplace (stAfterLogs envW subTwo stW "/tmp/a.mp3" AVATAR_VIDEO_PATH).fs
        (pyMaxAux
          (statKey (stAfterLogs envW subTwo stW "/tmp/a.mp3" AVATAR_VIDEO_PATH).fs)
          "/tmp/results/a.mp4" ["/tmp/results/b.mp4"]) "/tmp/out.mp4")
    ∧ pyMaxAux
        (statKey (stAfterLogs envW subTwo stW "/tmp/a.mp3" AVATAR_VIDEO_PATH).fs)
        "/tmp/results/a.mp4" ["/tmp/results/b.mp4"] = "/tmp/results/a.mp4"
    ∧ (run_musetalk envW subFB stW "/tmp/a.mp3" AVATAR_VIDEO_PATH
        "/tmp/out.mp4").2.fs =
      fsReplace (stAfterLogs envW subFB stW "/tmp/a.mp3" AVATAR_VIDEO_PATH).fs
        (pyMaxAux
          (statKey (stAfterLogs envW subFB stW "/tmp/a.mp3" AVATAR_VIDEO_PATH).fs)
          "/app/MuseTalk/results/avatar/gen.mp4" []) "/tmp/out.mp4" :=
  ⟨((c2_selection_rule envW subTwo stW "/tmp/a.mp3" AVATAR_VIDEO_PATH
      "/tmp/out.mp4" (by decide) rfl rfl).1
      "/tmp/results/a.mp4" ["/tmp/results/b.mp4"] (by decide)).1,
   by decide,
   ((c2_selection_rule envW subFB stW "/tmp/a.mp3" AVATAR_VIDEO_PATH
      "/tmp/out.mp4" (by decide) rfl rfl).2.1
      "/app/MuseTalk/results/avatar/gen.mp4" [] (by decide) (by decide)
      (by decide)).1⟩

/-! ## C3 -/

/-- C3 (amended): when the subprocess exits zero, exactly one video file
is found under the results directory and the caller-specified output path
differs from that file's own path, `run_musetalk` reports success with
the caller-specified output path, the file's data is afterwards at the
output path, and the file is gone from its original location (moved by
rename, not copied). -/
theorem c3_single_file_moved (env : Env) (sub : SubRun) (st0 : St)
    (a i o p : String)
    (hw : (check_required_weights env.musetalkPath st0.fs).1 = true)
    (ht : sub.timedOut = false)
    (hr : sub.returncode = 0)
    (hg : globMp4 (stAfterLogs env sub st0 a i).fs env.tempDir = [p])
    (hne : p ≠ o) :
    (run_musetalk env sub st0 a i o).1.success = true
    ∧ (run_musetalk env sub st0 a i o).1.output = some o
    ∧ fileExists (run_musetalk env sub st0 a i o).2.fs o = true
    ∧ fileExists (run_musetalk env sub st0 a i o).2.fs p = false
    ∧ lookupFile (run_musetalk env sub st0 a i o).2.fs o =
        lookupFile (stAfterLogs env sub st0 a i).fs p := by
  have hex : fileExists (stAfterLogs env sub st0 a i).fs p = true := by
    apply fileExists_of_mem_globMp4 _ env.tempDir
    rw [hg]
    exact List.mem_singleton_self p
  rw [run_musetalk_search env sub st0 a i o hw ht hr,
    searchPhase_found env o _ _ p [] hg]
  cases ho : lookupFile (stAfterLogs env sub st0 a i).fs p with
  | none => rw [fileExists, ho] at hex; cases hex
  | some ifo =>
    refine ⟨rfl, rfl, ?_, ?_, ?_⟩
    · simp only [pyMaxAux, fsReplace, ho]
      simp [fileExists, lookupFile_fsSet_self]
    · simp only [pyMaxAux, fsReplace, ho]
      simp [fileExists, lookupFile_fsSet_ne _ o p ifo hne,
        lookupFile_fsRemove_self]
    · simp only [pyMaxAux, fsReplace, ho]
      simp [lookupFile_fsSet_self, ho]

/-- Witness for C3's amended statement at a concrete run with exactly one
MP4 produced and a distinct output path. -/
theorem c3_single_file_moved_witness :
    (run_musetalk envW subSingle stW "/tmp/a.mp3" AVATAR_VIDEO_PATH
        "/tmp/out.mp4").1.success = true
    ∧ (run_musetalk envW subSingle stW "/tmp/a.mp3" AVATAR_VIDEO_PATH
        "/tmp/out.mp4").1.output = some "/tmp/out.mp4"
    ∧ fileExists (run_musetalk envW subSingle stW "/tmp/a.mp3"
        AVATAR_VIDEO_PATH "/tmp/out.mp4").2.fs "/tmp/out.mp4" = true
    ∧ fileExists (run_musetalk envW subSingle stW "/tmp/a.mp3"
        AVATAR_VIDEO_PATH "/tmp/out.mp4").2.fs "/tmp/results/v1/out.mp4" = false
    ∧ lookupFile (run_musetalk envW subSingle stW "/tmp/a.mp3"
        AVATAR_VIDEO_PATH "/tmp/out.mp4").2.fs "/tmp/out.mp4" =
        lookupFile (stAfterLogs envW subSingle stW "/tmp/a.mp3"
          AVATAR_VIDEO_PATH).fs "/tmp/results/v1/out.mp4" :=
  c3_single_file_moved envW subSingle stW "/tmp/a.mp3" AVATAR_VIDEO_PATH
    "/tmp/out.mp4" "/tmp/results/v1/out.mp4"
    (by decide) rfl rfl (by decide) (by decide)

/-- Counterexample to C3 as stated: with the subprocess exiting zero and
exactly one video file under the results directory, a call whose
caller-specified output path coincides with that file's own path returns
success — yet the file is still present at its original location, because
`Path.replace` onto the same path is a no-op rename.  This refutes the
unconditional "the file is no longer present at its original location". -/
theorem c3_counterexample :
    globMp4 (stAfterLogs envW subSingle stW "/tmp/a.mp3"
        AVATAR_VIDEO_PATH).fs envW.tempDir = ["/tmp/results/v1/out.mp4"]
    ∧ (run_musetalk envW subSingle stW "/tmp/a.mp3" AVATAR_VIDEO_PATH
        "/tmp/results/v1/out.mp4").1.success = true
    ∧ (run_musetalk envW subSingle stW "/tmp/a.mp3" AVATAR_VIDEO_PATH
        "/tmp/results/v1/out.mp4").1.output = some "/tmp/results/v1/out.mp4"
    ∧ fileExists (run_musetalk envW subSingle stW "/tmp/a.mp3"
        AVATAR_VIDEO_PATH "/tmp/results/v1/out.mp4").2.fs
        "/tmp/results/v1/out.mp4" = true := by
  decide

/-! ## C4 -/

/-- C4: with the subprocess exited zero, the fallback-search phase runs
if and only if the recursive search of the results directory finds no
MP4; and when the fallback directory exists and its glob is non-empty,
the same (size, mtime)-maximum selection applies, the selected file is
relocated to the caller-specified output path, and success is reported. -/
theorem c4_fallback_search (env : Env) (sub : SubRun) (st0 : St)
    (a i o : String)
    (h0 : st0.fallbackSearched = false)
    (hw : (check_required_weights env.musetalkPath st0.fs).1 = true)
    (ht : sub.timedOut = false)
    (hr : sub.returncode = 0) :
    ((run_musetalk env sub st0 a i o).2.fallbackSearched = true
       ↔ globMp4 (stAfterLogs env sub st0 a i).fs env.tempDir = [])
    ∧ (∀ (y : String) (ys : List String),
        globMp4 (stAfterLogs env sub st0 a i).fs env.tempDir = [] →
        dirExists (stAfterLogs env sub st0 a i) (fallbackRootOf env) = true →
        globMp4 (stAfterLogs env sub st0 a i).fs (fallbackRootOf env) = y :: ys →
          (run_musetalk env sub st0 a i o).1.success = true
          ∧ (run_musetalk env sub st0 a i o).1.output = some o
          ∧ (run_musetalk env sub st0 a i o).2.fs =
              fsReplace (stAfterLogs env sub st0 a i).fs
                (pyMaxAux (statKey (stAfterLogs env sub st0 a i).fs) y ys) o) := by
  have hpres : (stAfterLogs env sub st0 a i).fallbackSearched = false := h0
  constructor
  · rw [run_musetalk_search env sub st0 a i o hw ht hr]
    cases hg : globMp4 (stAfterLogs env sub st0 a i).fs env.tempDir with
    | nil =>
      by_cases hd : dirExists (stAfterLogs env sub st0 a i)
          (fallbackRootOf env) = true
      · cases hf : globMp4 (stAfterLogs env sub st0 a i).fs
            (fallbackRootOf env) with
        | nil =>
          rw [searchPhase_not_found_fb env o _ _ hg hd hf]
          simp
        | cons y ys =>
          rw [searchPhase_fallback_found env o _ _ y ys hg hd hf]
          simp
      · have hd' : dirExists (stAfterLogs env sub st0 a i)
            (fallbackRootOf env) = false := by simpa using hd
        rw [searchPhase_not_found_nofb env o _ _ hg hd']
        simp
    | cons x xs =>
      rw [searchPhase_found env o _ _ x xs hg]
      simp [hpres]
  · intro y ys hg hd hf
    rw [run_musetalk_search env sub st0 a i o hw ht hr,
      searchPhase_fallback_found env o _ _ y ys hg hd hf]
    exact ⟨rfl, rfl, rfl⟩

/-- Witness for C4 at a concrete run: the results directory holds no MP4,
the fallback root holds one, which is moved to the output path. -/
theorem c4_fallback_search_witness :
    (run_musetalk envW subFB stW "/tmp/a.mp3" AVATAR_VIDEO_PATH
        "/tmp/out.mp4").1.success = true
    ∧ (run_musetalk envW subFB stW "/tmp/a.mp3" AVATAR_VIDEO_PATH
        "/tmp/out.mp4").1.output = some "/tmp/out.mp4"
    ∧ (run_musetalk envW subFB stW "/tmp/a.mp3" AVATAR_VIDEO_PATH
        "/tmp/out.mp4").2.fallbackSearched = true :=
  ⟨(c4_fallback_search envW subFB stW "/tmp/a.mp3" AVATAR_VIDEO_PATH
      "/tmp/out.mp4" rfl (by decide) rfl rfl).2
      "/app/MuseTalk/results/avatar/gen.mp4" [] (by decide) (by decide)
      (by decide) |>.1,
   (c4_fallback_search envW subFB stW "/tmp/a.mp3" AVATAR_VIDEO_PATH
      "/tmp/out.mp4" rfl (by decide) rfl rfl).2
      "/app/MuseTalk/results/avatar/gen.mp4" [] (by decide) (by decide)
      (by decide) |>.2.1,
   (c4_fallback_search envW subFB stW "/tmp/a.mp3" AVATAR_VIDEO_PATH
      "/tmp/out.mp4" rfl (by decide) rfl rfl).1.mpr (by decide)⟩

/-! ## C5 -/

theorem check_required_weights_snd (mp : String) (fs : FS)
    (h : (check_required_weights mp fs).1 = false) :
    (check_required_weights mp fs).2 =
      mp ++ "/models/sd-vae/diffusion_pytorch_model.bin" := by
  simp only [check_required_weights] at h ⊢
  split at h
  · simp at h
  · simp_all

/-- C5: when neither weight-file variant exists, `run_musetalk` fails
immediately, its error message reports the expected `.bin` weight path,
the filesystem is untouched (so no config document, stdout log or stderr
log is written), and the subprocess is never launched. -/
theorem c5_weights_precondition (env : Env) (sub : SubRun) (st0 : St)
    (a i o : String)
    (h : (check_required_weights env.musetalkPath st0.fs).1 = false)
    (h0 : st0.subLaunched = false) :
    (run_musetalk env sub st0 a i o).1.success = false
    ∧ (run_musetalk env sub st0 a i o).1.error =
        some ("Missing required weight file: "
          ++ (env.musetalkPath ++ "/models/sd-vae/diffusion_pytorch_model.bin"))
    ∧ (run_musetalk env sub st0 a i o).2.fs = st0.fs
    ∧ (run_musetalk env sub st0 a i o).2.subLaunched = false
    ∧ (run_musetalk env sub st0 a i o).2.dirs = st0.dirs := by
  rw [run_musetalk_weights_missing env sub st0 a i o h]
  refine ⟨rfl, ?_, rfl, ?_, rfl⟩
  · rw [check_required_weights_snd env.musetalkPath st0.fs h]
  · simp [stChdir, h0]

/-- Witness for C5: an empty filesystem has neither weight variant; the
call fails with the reported path and no file is ever written. -/
theorem c5_weights_precondition_witness :
    (run_musetalk envW subSingle stNoW "/tmp/a.mp3" AVATAR_VIDEO_PATH
        "/tmp/out.mp4").1.success = false
    ∧ (run_musetalk envW subSingle stNoW "/tmp/a.mp3" AVATAR_VIDEO_PATH
        "/tmp/out.mp4").1.error =
        some ("Missing required weight file: "
          ++ (envW.musetalkPath ++ "/models/sd-vae/diffusion_pytorch_model.bin"))
    ∧ (run_musetalk envW subSingle stNoW "/tmp/a.mp3" AVATAR_VIDEO_PATH
        "/tmp/out.mp4").2.fs = stNoW.fs
    ∧ (run_musetalk envW subSingle stNoW "/tmp/a.mp3" AVATAR_VIDEO_PATH
        "/tmp/out.mp4").2.subLaunched = false
    ∧ (run_musetalk envW subSingle stNoW "/tmp/a.mp3" AVATAR_VIDEO_PATH
        "/tmp/out.mp4").2.dirs = stNoW.dirs :=
  c5_weights_precondition envW subSingle stNoW "/tmp/a.mp3" AVATAR_VIDEO_PATH
    "/tmp/out.mp4" (by decide) rfl

/-! ## C6 -/

/-- C6 (amended): when the subprocess exits zero and no MP4 is found in
either the results directory or the fallback directory, `run_musetalk`
fails with the OutputNotFoundError message, and its returned logs carry a
listing capped at the first 200 entries of all files present in the
results directory, plus — when the fallback root exists — the fallback
root path and a listing capped at 200 entries of the `.mp4` files under
the fallback root only (hence empty in this branch), not of all files
present there. -/
theorem c6_output_not_found (env : Env) (sub : SubRun) (st0 : St)
    (a i o : String)
    (hw : (check_required_weights env.musetalkPath st0.fs).1 = true)
    (ht : sub.timedOut = false)
    (hr : sub.returncode = 0)
    (hg : globMp4 (stAfterLogs env sub st0 a i).fs env.tempDir = [])
    (hf : dirExists (stAfterLogs env sub st0 a i) (fallbackRootOf env) = true →
      globMp4 (stAfterLogs env sub st0 a i).fs (fallbackRootOf env) = []) :
    (run_musetalk env sub st0 a i o).1.success = false
    ∧ (run_musetalk env sub st0 a i o).1.error =
        some "No MP4 found in result_dir"
    ∧ (dirExists (stAfterLogs env sub st0 a i) (fallbackRootOf env) = true →
        (run_musetalk env sub st0 a i o).1.logs =
          some (JobLogs.run
            { mkRunLogs env sub with
              result_dir_files :=
                some ((filesUnder (stAfterLogs env sub st0 a i).fs
                  env.tempDir).take 200)
              fallback_results_root := some (fallbackRootOf env)
              fallback_results_files :=
                some ((mp4sUnder (stAfterLogs env sub st0 a i).fs
                  (fallbackRootOf env)).take 200) }))
    ∧ (dirExists (stAfterLogs env sub st0 a i) (fallbackRootOf env) = false →
        (run_musetalk env sub st0 a i o).1.logs =
          some (JobLogs.run
            { mkRunLogs env sub with
              result_dir_files :=
                some ((filesUnder (stAfterLogs env sub st0 a i).fs
                  env.tempDir).take 200) })) := by
  rw [run_musetalk_search env sub st0 a i o hw ht hr]
  by_cases hd : dirExists (stAfterLogs env sub st0 a i)
      (fallbackRootOf env) = true
  · rw [searchPhase_not_found_fb env o _ _ hg hd (hf hd)]
    refine ⟨rfl, rfl, fun _ => rfl, fun hc => ?_⟩
    rw [hc] at hd
    exact Bool.noConfusion hd
  · have hd' : dirExists (stAfterLogs env sub st0 a i)
        (fallbackRootOf env) = false := by simpa using hd
    rw [searchPhase_not_found_nofb env o _ _ hg hd']
    refine ⟨rfl, rfl, fun hc => ?_, fun _ => rfl⟩
    rw [hc] at hd'
    exact Bool.noConfusion hd'

/-- Witness for C6's amended statement at a concrete run: no MP4 exists
anywhere, the fallback root exists, and the logs carry the capped
listings exactly as the code builds them. -/
theorem c6_output_not_found_witness :
    (run_musetalk envW subNoOut stW "/tmp/a.mp3" AVATAR_VIDEO_PATH
        "/tmp/out.mp4").1.success = false
    ∧ (run_musetalk envW subNoOut stW "/tmp/a.mp3" AVATAR_VIDEO_PATH
        "/tmp/out.mp4").1.error = some "No MP4 found in result_dir"
    ∧ (run_musetalk envW subNoOut stW "/tmp/a.mp3" AVATAR_VIDEO_PATH
        "/tmp/out.mp4").1.logs =
        some (JobLogs.run
          { mkRunLogs envW subNoOut with
            result_dir_files :=
              some ((filesUnder (stAfterLogs envW subNoOut stW "/tmp/a.mp3"
                AVATAR_VIDEO_PATH).fs envW.tempDir).take 200)
            fallback_results_root := some (fallbackRootOf envW)
            fallback_results_files :=
              some ((mp4sUnder (stAfterLogs envW subNoOut stW "/tmp/a.mp3"
                AVATAR_VIDEO_PATH).fs (fallbackRootOf envW)).take 200) }) :=
  have h := c6_output_not_found envW subNoOut stW "/tmp/a.mp3"
    AVATAR_VIDEO_PATH "/tmp/out.mp4" (by decide) rfl rfl (by decide)
    (fun _ => by decide)
  ⟨h.1, h.2.1, h.2.2.1 (by decide)⟩

/-- Counterexample to C6 as stated: the subprocess exits zero, no MP4
exists anywhere, the fallback root exists and actually contains a file
(`readme.txt`), yet the logged fallback listing is empty — the code lists
only `*.mp4` files under the fallback root, not the files actually
present there. -/
theorem c6_counterexample :
    (run_musetalk envW subNoOut stW "/tmp/a.mp3" AVATAR_VIDEO_PATH
        "/tmp/out.mp4").1.error = some "No MP4 found in result_dir"
    ∧ fileExists (run_musetalk envW subNoOut stW "/tmp/a.mp3"
        AVATAR_VIDEO_PATH "/tmp/out.mp4").2.fs
        "/app/MuseTalk/results/readme.txt" = true
    ∧ filesUnder (run_musetalk envW subNoOut stW "/tmp/a.mp3"
        AVATAR_VIDEO_PATH "/tmp/out.mp4").2.fs (fallbackRootOf envW) =
        ["/app/MuseTalk/results/readme.txt"]
    ∧ logsFallbackFiles (run_musetalk envW subNoOut stW "/tmp/a.mp3"
        AVATAR_VIDEO_PATH "/tmp/out.mp4").1 = some [] := by
  decide

/-! ## C7 -/

theorem fileExists_fsSet_mono (fs : FS) (p q : String) (i : FileInfo)
    (h : fileExists fs q = true) : fileExists (fsSet fs p i) q = true := by
  by_cases hq : q = p
  · subst hq; simp [fileExists, lookupFile_fsSet_self]
  · rw [fileExists, lookupFile_fsSet_ne fs p q i hq]; exact h

/-- The weight-file check is stable under creating further files. -/
theorem check_fst_fsSet (mp : String) (fs : FS) (p : String) (i : FileInfo)
    (h : (check_required_weights mp fs).1 = true) :
    (check_required_weights mp (fsSet fs p i)).1 = true := by
  simp only [check_required_weights] at h ⊢
  split at h
  · rename_i hc
    have hc' : fileExists fs
          (mp ++ "/models/sd-vae/diffusion_pytorch_model.bin") = true
        ∨ fileExists fs
          (mp ++ "/models/sd-vae/diffusion_pytorch_model.safetensors") = true := by
      simpa using hc
    have hC : (fileExists (fsSet fs p i)
          (mp ++ "/models/sd-vae/diffusion_pytorch_model.bin")
        || fileExists (fsSet fs p i)
          (mp ++ "/models/sd-vae/diffusion_pytorch_model.safetensors")) = true := by
      rcases hc' with h1 | h1
      · simp [fileExists_fsSet_mono fs p _ i h1]
      · simp [fileExists_fsSet_mono fs p _ i h1]
    rw [if_pos hC]
  · simp at h

/-- C7: when the weight files are in place and the subprocess exceeds the
900-second timeout, `run_musetalk` returns failure with error "MuseTalk
timeout expired" and logs recording the timeout phase; and the HTTP
handler surfaces this as status 500 with that error string as details. -/
theorem c7_timeout (env : Env) (sub : SubRun) (st0 : St) (a i o : String)
    (aw : ApiWorld) (req : HttpRequest)
    (hw : (check_required_weights env.musetalkPath st0.fs).1 = true)
    (hto : sub.timedOut = true)
    (h1 : req.hasAudioField = true)
    (h2 : req.audioFilename ≠ "") :
    (run_musetalk env sub st0 a i o).1 =
      { success := false, output := none,
        error := some "MuseTalk timeout expired",
        logs := some (JobLogs.timeout sub.excRepr) }
    ∧ (create_lipsync env sub aw st0 req).1 =
        HttpResponse.json 500 "MuseTalk processing failed"
          (some "MuseTalk timeout expired") := by
  have hw2 : (check_required_weights env.musetalkPath
      (stPrepared aw st0 req).fs).1 = true := by
    simp only [stPrepared, stWrite]
    exact check_fst_fsSet _ _ _ _ (check_fst_fsSet _ _ _ _ hw)
  constructor
  · rw [run_musetalk_timeout env sub st0 a i o hw hto]
  · simp only [create_lipsync, h1, h2]
    rw [run_musetalk_timeout env sub (stPrepared aw st0 req)
      aw.tempAudioPath AVATAR_VIDEO_PATH aw.tempOutputPath hw2 hto]
    simp

/-- Witness for C7 at a concrete timed-out run and a valid request. -/
theorem c7_timeout_witness :
    (run_musetalk envW subTO stW "/tmp/a.mp3" AVATAR_VIDEO_PATH
        "/tmp/out.mp4").1 =
      { success := false, output := none,
        error := some "MuseTalk timeout expired",
        logs := some (JobLogs.timeout subTO.excRepr) }
    ∧ (create_lipsync envW subTO awW stW reqW).1 =
        HttpResponse.json 500 "MuseTalk processing failed"
          (some "MuseTalk timeout expired") :=
  c7_timeout envW subTO stW "/tmp/a.mp3" AVATAR_VIDEO_PATH "/tmp/out.mp4"
    awW reqW (by decide) rfl rfl (by decide)

/-! ## C8 -/

/-- The normalised path never contains a backslash. -/
theorem normSlash_no_backslash (s : String) :
    ∀ c ∈ (normSlash s).data, c ≠ '\\' := by
  intro c hc
  rcases List.mem_map.mp hc with ⟨a, _, rfl⟩
  by_cases h : a = '\\' <;> simp [h]

/-- C8: for every (audio path, reference-media path) pair, the state
reached just before the subprocess launch holds, at
`<results_dir>/my_test.yaml`, exactly the document `make_temp_yaml`
emits: a single task keyed `task_0` whose `video_path` is the
reference-media path and whose `audio_path` is the audio path, both with
every backslash replaced by a forward slash, and `bbox_shift` fixed at 0. -/
theorem c8_yaml_document (env : Env) (st0 : St)
    (audio_path image_path : String) :
    lookupFile (stAfterYaml env st0 audio_path image_path).fs (yamlPathOf env)
      = some ⟨(yamlText audio_path image_path).length, 0,
          yamlText audio_path image_path⟩
    ∧ yamlText audio_path image_path =
        "task_0:\n  video_path: \"" ++ normSlash image_path
          ++ "\"\n  audio_path: \"" ++ normSlash audio_path
          ++ "\"\n  bbox_shift: 0\n"
    ∧ (∀ c ∈ (normSlash audio_path).data, c ≠ '\\')
    ∧ (∀ c ∈ (normSlash image_path).data, c ≠ '\\') := by
  refine ⟨?_, ?_, normSlash_no_backslash _, normSlash_no_backslash _⟩
  · simp only [stAfterYaml, stWrite]
    exact lookupFile_fsSet_self _ _ _
  · apply String.ext
    have l1 : ("task_0:\n  video_path: \"" : String).data =
        ("task_0:\n" : String).data ++ ("  video_path: \"" : String).data := by
      decide
    have l2 : ("\"\n  audio_path: \"" : String).data =
        ("\"\n" : String).data ++ ("  audio_path: \"" : String).data := by
      decide
    have l3 : ("\"\n  bbox_shift: 0\n" : String).data =
        ("\"\n" : String).data ++ ("  bbox_shift: 0\n" : String).data := by
      decide
    simp [yamlText, String.data_append, l1, l2, l3]

/-- Witness for C8 at concrete Windows-style paths: the document is in
place and its backslashes are gone. -/
theorem c8_yaml_document_witness :
    lookupFile (stAfterYaml envW stW "C:\\snd\\a.wav" "C:\\img\\i.png").fs
        (yamlPathOf envW)
      = some ⟨(yamlText "C:\\snd\\a.wav" "C:\\img\\i.png").length, 0,
          yamlText "C:\\snd\\a.wav" "C:\\img\\i.png"⟩
    ∧ ¬ ('\\' ∈ (normSlash "C:\\snd\\a.wav").data)
    ∧ yamlText "C:\\snd\\a.wav" "C:\\img\\i.png" =
        "task_0:\n  video_path: \"C:/img/i.png\"\n  audio_path: \"C:/snd/a.wav\"\n  bbox_shift: 0\n" :=
  ⟨(c8_yaml_document envW stW "C:\\snd\\a.wav" "C:\\img\\i.png").1,
   fun h => (c8_yaml_document envW stW "C:\\snd\\a.wav" "C:\\img\\i.png").2.2.1
     '\\' h rfl,
   by decide⟩

/-! ## C9 -/

/-- C9: a `POST /lipsync` without the `audio` multipart field is answered
400 with body error "No audio file provided", and one whose `audio`
filename is empty is answered 400 with body error "No audio file
selected"; in both cases the machine state is returned untouched, so the
Job Runner is never invoked. -/
theorem c9_request_validation (env : Env) (sub : SubRun) (aw : ApiWorld)
    (st0 : St) (req : HttpRequest) :
    (req.hasAudioField = false →
      create_lipsync env sub aw st0 req =
        (HttpResponse.json 400 "No audio file provided" none, st0))
    ∧ (req.hasAudioField = true → req.audioFilename = "" →
      create_lipsync env sub aw st0 req =
        (HttpResponse.json 400 "No audio file selected" none, st0)) := by
  constructor
  · intro h
    simp [create_lipsync, h]
  · intro h1 h2
    simp [create_lipsync, h1, h2]

/-- Witness for C9 on the two concrete malformed requests. -/
theorem c9_request_validation_witness :
    create_lipsync envW subSingle awW stW reqNoAudio =
      (HttpResponse.json 400 "No audio file provided" none, stW)
    ∧ create_lipsync envW subSingle awW stW reqEmptyName =
      (HttpResponse.json 400 "No audio file selected" none, stW) :=
  ⟨(c9_request_validation envW subSingle awW stW reqNoAudio).1 rfl,
   (c9_request_validation envW subSingle awW stW reqEmptyName).2 rfl rfl⟩

/-! ## C10 -/

theorem removeIfExists_runnerInvoked (st : St) (p : String) :
    (removeIfExists st p).runnerInvoked = st.runnerInvoked := by
  unfold removeIfExists
  split <;> rfl

theorem fileExists_removeIfExists_self (st : St) (p : String) :
    fileExists (removeIfExists st p).fs p = false := by
  unfold removeIfExists
  split
  · simp [fileExists, lookupFile_fsRemove_self]
  · rename_i h
    simpa using h

/-- `run_musetalk` never changes the handler's runner-invocation flag. -/
theorem run_musetalk_runnerInvoked (env : Env) (sub : SubRun) (st0 : St)
    (a i o : String) :
    (run_musetalk env sub st0 a i o).2.runnerInvoked = st0.runnerInvoked := by
  by_cases hw : (check_required_weights env.musetalkPath st0.fs).1 = false
  · rw [run_musetalk_weights_missing env sub st0 a i o hw]
    rfl
  · have hw' : (check_required_weights env.musetalkPath st0.fs).1 = true := by
      simpa using hw
    by_cases ht : sub.timedOut = true
    · rw [run_musetalk_timeout env sub st0 a i o hw' ht]
      rfl
    · have ht' : sub.timedOut = false := by simpa using ht
      by_cases hr : sub.returncode = 0
      · rw [run_musetalk_search env sub st0 a i o hw' ht' hr]
        cases hg : globMp4 (stAfterLogs env sub st0 a i).fs env.tempDir with
        | nil =>
          by_cases hd : dirExists (stAfterLogs env sub st0 a i)
              (fallbackRootOf env) = true
          · cases hf : globMp4 (stAfterLogs env sub st0 a i).fs
                (fallbackRootOf env) with
            | nil =>
              rw [searchPhase_not_found_fb env o _ _ hg hd hf]
              rfl
            | cons y ys =>
              rw [searchPhase_fallback_found env o _ _ y ys hg hd hf]
              rfl
          · have hd' : dirExists (stAfterLogs env sub st0 a i)
                (fallbackRootOf env) = false := by simpa using hd
            rw [searchPhase_not_found_nofb env o _ _ hg hd']
            rfl
        | cons x xs =>
          rw [searchPhase_found env o _ _ x xs hg]
          rfl
      · rw [run_musetalk_nonzero env sub st0 a i o hw' ht' hr]
        rfl

/-- C10: for every request that reaches the Job Runner, the guaranteed
cleanup phase leaves no file at the temporary output path (the produced
video is deleted even after a success, once the file response has been
built), a fault raised inside the cleanup never alters the HTTP response,
and the Job Runner was indeed invoked. -/
theorem c10_cleanup_phase (env : Env) (sub : SubRun) (st0 : St)
    (req : HttpRequest) (aPath oPath : String)
    (h1 : req.hasAudioField = true)
    (h2 : req.audioFilename ≠ "") :
    fileExists (create_lipsync env sub ⟨aPath, oPath, false⟩ st0 req).2.fs
        oPath = false
    ∧ (create_lipsync env sub ⟨aPath, oPath, true⟩ st0 req).1 =
        (create_lipsync env sub ⟨aPath, oPath, false⟩ st0 req).1
    ∧ (create_lipsync env sub ⟨aPath, oPath, false⟩ st0 req).2.runnerInvoked
        = true := by
  refine ⟨?_, ?_, ?_⟩
  · simp [create_lipsync, h1, h2, fileExists_removeIfExists_self]
  · simp [create_lipsync, stPrepared, h1, h2]
  · simp [create_lipsync, h1, h2, removeIfExists_runnerInvoked,
      run_musetalk_runnerInvoked, stPrepared]

/-- Witness for C10 at a concrete successful run: the output file is gone
afterwards, and a faulty cleanup does not change the response. -/
theorem c10_cleanup_phase_witness :
    fileExists (create_lipsync envW subSingle
        ⟨"/tmp/tmpaud.mp3", "/tmp/tmpout.mp4", false⟩ stW reqW).2.fs
        "/tmp/tmpout.mp4" = false
    ∧ (create_lipsync envW subSingle
        ⟨"/tmp/tmpaud.mp3", "/tmp/tmpout.mp4", true⟩ stW reqW).1 =
        (create_lipsync envW subSingle
          ⟨"/tmp/tmpaud.mp3", "/tmp/tmpout.mp4", false⟩ stW reqW).1
    ∧ (create_lipsync envW subSingle
        ⟨"/tmp/tmpaud.mp3", "/tmp/tmpout.mp4", false⟩ stW reqW).2.runnerInvoked
        = true :=
  c10_cleanup_phase envW subSingle stW reqW "/tmp/tmpaud.mp3"
    "/tmp/tmpout.mp4" rfl (by decide)
